import Mathlib

/-!
Verification of the pypod protocol stack (AFC file-protocol client,
lockdown pairing manager, usbmux transport multiplexer).

The definitions below are a shallow embedding of the Python sources:
  * src/pypod/core/afc.py       (AFC file-protocol client)
  * src/pypod/core/lockdown.py  (pairing / session manager)
  * src/pypod/usbmux/usbmux.py  (mux connection / usbmuxd client)
  * src/pypod/usbmux/protocol.py (binary / plist mux protocols)
  * src/pypod/afc/exceptions.py (iOSError errno initialisation)

Bytes are modelled as natural numbers (values below 256); Python integers are
`Int` where they may be negative and `Nat` where they originate from unsigned
64-bit wire fields.  Fallible Python code is modelled with `Except`, where the
error value stands for the exception that propagates.
-/

namespace PyPod

/-- Modelled from the spec: the AFC operation and error codes are defined in
`core/constants.py`, which is not among the provided sources; the spec
(section 6) lists the opcode names.  Only distinctness of the codes matters
below; the numeric values follow the standard AFC protocol tables. -/
def AFC_OP_STATUS : Nat := 1

def AFC_OP_READ_DIR : Nat := 3

def AFC_OP_REMOVE_PATH : Nat := 8

def AFC_OP_GET_FILE_INFO : Nat := 10

def AFC_OP_GET_DEVINFO : Nat := 11

def AFC_OP_FILE_OPEN : Nat := 13

def AFC_OP_READ : Nat := 15

def AFC_OP_WRITE : Nat := 16

def AFC_OP_FILE_SEEK : Nat := 17

def AFC_OP_FILE_TELL : Nat := 18

def AFC_OP_FILE_CLOSE : Nat := 20

def AFC_OP_FILE_SET_SIZE : Nat := 21

def AFC_E_SUCCESS : Nat := 0

def AFC_E_UNKNOWN_ERROR : Nat := 1

def AFC_E_INVALID_ARG : Nat := 7

def AFC_E_OBJECT_NOT_FOUND : Nat := 8

def AFC_E_OBJECT_IS_DIR : Nat := 9

/-- OS error numbers from Python's `errno` module (Linux values). -/
def ENOENT : Nat := 2

def ENOTDIR : Nat := 20

def EINVAL : Nat := 22

def ENOTEMPTY : Nat := 39

/-- The Python exceptions that the modelled code can raise.  `iOSError` and
`iFileNotFoundError` carry the `errno` attribute read and mutated by
`AFCClient.remove`; `iFileNotFoundError` is the FileNotFound specialisation of
the protocol error (spec section 7) and is a subclass of `iOSError`. -/
inductive PyErr where
  | iOSError (errno : Option Nat) (afcErrno : Option Nat)
  | iFileNotFoundError (errno : Option Nat)
  | assertionError
  | structError
  | valueError
  | keyError
  | attributeError
  | muxError
  | muxVersionError
  | muxTagMismatch (expected got : Nat)
  deriving Repr, DecidableEq

/-- The `errno` attribute of a raised OSError subclass (`e.errno`). -/
def PyErr.errno : PyErr → Option Nat
  | .iOSError e _ => e
  | .iFileNotFoundError e => e
  | _ => none

/-- The assignment `e.errno = n` performed by `AFCClient.remove`. -/
def PyErr.setErrno : PyErr → Nat → PyErr
  | .iOSError _ afc, n => .iOSError (some n) afc
  | .iFileNotFoundError _, n => .iFileNotFoundError (some n)
  | e, _ => e

/-- Whether an exception is caught by `except iOSError`
(`iFileNotFoundError` is a subclass of `iOSError`). -/
def PyErr.isIOSError : PyErr → Bool
  | .iOSError _ _ => true
  | .iFileNotFoundError _ => true
  | _ => false

/-- Translated from `AFC_TO_OS_ERROR_CODES` in src/pypod/afc/exceptions.py
(the repository's AFC error module; the `core` package's copy is not among the
provided sources): `.get(afc_errno)` on the two-entry mapping. -/
def AFC_TO_OS_ERROR_CODES (afcErrno : Option Nat) : Option Nat :=
  match afcErrno with
  | some e =>
    if e = AFC_E_OBJECT_NOT_FOUND then some ENOENT
    else if e = AFC_E_OBJECT_IS_DIR then some ENOTDIR
    else none
  | none => none

/-- Model of `iOSError.__init__` from src/pypod/afc/exceptions.py:
`errno = AFC_TO_OS_ERROR_CODES.get(afc_errno) if errno is None else errno`. -/
def mkIOSError (errno : Option Nat) (afcErrno : Option Nat) : PyErr :=
  .iOSError
    (match errno with
     | none => AFC_TO_OS_ERROR_CODES afcErrno
     | some e => some e)
    afcErrno

/-- The device's reply to one AFC request, as decoded by
`AFCClient._get_response` (core/afc.py lines 75-85): a packet whose header
operation is `AFC_OP_STATUS` yields a status code; any other packet yields its
payload as result data with an implicit success status. -/
inductive AFCReply where
  | statusReply (status : Nat)
  | dataReply (payload : List Nat)
  deriving Repr, DecidableEq

/-- Model of `pack('<Q', n)`: the little-endian 8-byte encoding of an unsigned 64-bit
value. -/
def uint64le (n : Nat) : List Nat :=
  [n % 256, n / 2 ^ 8 % 256, n / 2 ^ 16 % 256, n / 2 ^ 24 % 256,
   n / 2 ^ 32 % 256, n / 2 ^ 40 % 256, n / 2 ^ 48 % 256, n / 2 ^ 56 % 256]

/-- Model of `pack('<Q', v)` for a Python int: struct raises for values outside the
unsigned 64-bit range.  (For `0 ≤ v` the condition `v.toNat < 2 ^ 64` is
exactly `v < 2 ^ 64`; the `toNat` form keeps kernel reduction tractable.) -/
def packQ (v : Int) : Except PyErr (List Nat) :=
  if 0 ≤ v ∧ v.toNat < 2 ^ 64 then .ok (uint64le v.toNat)
  else .error .structError

/-- Model of `pack('<QQQ', a, b, c)`. -/
def packQQQ (a b c : Int) : Except PyErr (List Nat) :=
  match packQ a, packQ b, packQ c with
  | .ok x, .ok y, .ok z => .ok (x ++ y ++ z)
  | .error e, _, _ => .error e
  | _, .error e, _ => .error e
  | _, _, .error e => .error e

/-- Model of `unpack('<Q', data)[0]`: struct raises unless the buffer holds exactly
8 bytes. -/
def unpackQ (data : List Nat) : Except PyErr Nat :=
  match data with
  | [b0, b1, b2, b3, b4, b5, b6, b7] =>
    .ok (b0 + b1 * 2 ^ 8 + b2 * 2 ^ 16 + b3 * 2 ^ 24 + b4 * 2 ^ 32 +
         b5 * 2 ^ 40 + b6 * 2 ^ 48 + b7 * 2 ^ 56)
  | _ => .error .structError

/-- Model of `AFCClient.request` (core/afc.py lines 49-64) with the wire exchange
abstracted to the decoded reply: a non-success status raises
`iFileNotFoundError` when the status is object-not-found and a path was
supplied, and otherwise `iOSError(None, status, ...)`; a success status or a
data packet returns the payload. -/
def request (operation : Nat) (hasPath : Bool) (reply : AFCReply) :
    Except PyErr (List Nat) :=
  match reply with
  | .dataReply payload => .ok payload
  | .statusReply status =>
    if status = AFC_E_SUCCESS then .ok (uint64le status)
    else if status = AFC_E_OBJECT_NOT_FOUND ∧ hasPath then
      .error (.iFileNotFoundError none)
    else .error (mkIOSError none (some status))

/-- The header built by `AFCClient._send_packet` (core/afc.py lines 66-73):
`entire_length` is 40 plus the payload length, `this_length` is the `length`
argument when given (Python's `length or actual_len`: `None` and `0` both fall
back to the actual length). -/
structure AFCPacketHeader where
  entireLength : Nat
  thisLength : Nat
  packetNum : Nat
  operation : Nat
  deriving Repr, DecidableEq

def sendPacketHeader (packetNum operation : Nat) (data : List Nat)
    (length : Option Nat) : AFCPacketHeader :=
  let actualLen := 40 + data.length
  { entireLength := actualLen
    thisLength :=
      match length with
      | none => actualLen
      | some l => if l = 0 then actualLen else l
    packetNum := packetNum
    operation := operation }

def MAXIMUM_READ_SIZE : Nat := 2 ^ 16

def MAXIMUM_WRITE_SIZE : Nat := 2 ^ 15

/-! ### Key/value decoding (`_as_dict`, core/afc.py lines 290-294) -/

/-- Python's `str.split(sep)` for a one-byte separator: every occurrence of
the separator starts a new part, so `n` separators yield `n + 1` parts and the
empty input yields one empty part. -/
def pySplit (sep : Nat) : List Nat → List (List Nat)
  | [] => [[]]
  | b :: rest =>
    if b = sep then [] :: pySplit sep rest
    else
      match pySplit sep rest with
      | [] => [[b]]
      | p :: ps => (b :: p) :: ps

/-- Model of `_as_dict` (core/afc.py lines 290-294): split the payload on NUL bytes,
drop the final part (`[:-1]`), assert an even part count, and pair the parts
up as alternating keys and values (`dict(zip(iparts, iparts))`, here kept as
the association list in insertion order). -/
def pairUp : List (List Nat) → List (List Nat × List Nat)
  | k :: v :: rest => (k, v) :: pairUp rest
  | _ => []

def asDict (data : List Nat) : Except PyErr (List (List Nat × List Nat)) :=
  let parts := (pySplit 0 data).dropLast
  if parts.length % 2 = 0 then .ok (pairUp parts) else .error .assertionError

/-- The encoding that produces a NUL-terminated flat string list: every
segment followed by a NUL byte. -/
def nulJoin (segments : List (List Nat)) : List Nat :=
  (segments.map (· ++ [0])).flatten

/-! ### Write chunking (`AFCClient.write`, core/afc.py lines 238-256) -/

/-- The chunk decomposition performed by the `while remaining > 0` loop of
`AFCClient.write`: consecutive slices of at most `MAXIMUM_WRITE_SIZE` bytes. -/
def writeChunks : List Nat → List (List Nat)
  | [] => []
  | b :: rest =>
    (b :: rest).take MAXIMUM_WRITE_SIZE ::
      writeChunks ((b :: rest).drop MAXIMUM_WRITE_SIZE)
termination_by l => l.length
decreasing_by simp [MAXIMUM_WRITE_SIZE]; omega

/-- The loop body of `AFCClient.write`: for each chunk, one WRITE request
whose data is the 8-byte packed handle followed by the chunk, dispatched with
`length=48` (so `this_length` is hardcoded to 48) and an incrementing packet
number; a non-success reply raises, leaving later chunks unsent.  Returns the
dispatched packets (header and request data) alongside the loop's outcome. -/
def writeLoop (handle : Nat) (replies : Nat → AFCReply) (packetNum i : Nat) :
    List (List Nat) → List (AFCPacketHeader × List Nat) × Except PyErr Unit
  | [] => ([], .ok ())
  | c :: cs =>
    let chunkData := uint64le handle ++ c
    let pkt := (sendPacketHeader packetNum AFC_OP_WRITE chunkData (some 48), chunkData)
    match request AFC_OP_WRITE true (replies i) with
    | .error e => ([pkt], .error e)
    | .ok _ =>
      let (rest, r) := writeLoop handle replies (packetNum + 1) (i + 1) cs
      (pkt :: rest, r)

/-- Model of `AFCClient.write` (core/afc.py lines 238-256) for an already-open handle:
splits the payload into chunks, dispatches one WRITE request per chunk, and
returns `len(data)` when every request succeeded. -/
def AFCWrite (handle packetNum : Nat) (data : List Nat)
    (replies : Nat → AFCReply) :
    List (AFCPacketHeader × List Nat) × Except PyErr Nat :=
  let (pkts, r) := writeLoop handle replies packetNum 0 (writeChunks data)
  (pkts, r.map fun _ => data.length)

/-! ### The handle table and the file operations (core/afc.py lines 114-183) -/

/-- The client's handle table `self._handles`, an association of handle ids to
the paths passed to `file_open`. -/
abbrev HandleTable := List (Nat × String)

/-- Model of `AFCClient._handle_path` (core/afc.py lines 123-128): look the handle up
in the table; a missing handle raises `iOSError(None, None, ...)`. -/
def handlePath (handles : HandleTable) (handle : Nat) : Except PyErr String :=
  match handles.lookup handle with
  | some p => .ok p
  | none => .error (mkIOSError none none)

/-- Model of `AFCClient.file_tell` (core/afc.py lines 135-137): one FILE_TELL request
(no handle-table consultation), then `unpack('<Q', data)[0]`. -/
def file_tell (tellReply : AFCReply) (handle : Nat) : Except PyErr Nat :=
  match request AFC_OP_FILE_TELL false tellReply with
  | .error e => .error e
  | .ok data => unpackQ data

/-- Model of `AFCClient.file_close` (core/afc.py lines 130-133): pop the handle from
the table with the default `'(UNKNOWN)'` (so an unknown handle raises no local
error), then send the FILE_CLOSE request.  Returns the updated table and the
request's outcome. -/
def file_close (handles : HandleTable) (closeReply : AFCReply) (handle : Nat) :
    HandleTable × Except PyErr Unit :=
  (handles.eraseP (fun p => p.1 = handle),
   (request AFC_OP_FILE_CLOSE false closeReply).map fun _ => ())

/-- Model of `AFCClient.file_truncate` (core/afc.py lines 171-176): when no size is
given the target defaults to the current tell; one FILE_SET_SIZE request, no
handle-table consultation. -/
def file_truncate (tellReply truncReply : AFCReply) (handle : Nat)
    (size : Option Nat) : Except PyErr Nat :=
  match (match size with
         | none => file_tell tellReply handle
         | some s => .ok s) with
  | .error e => .error e
  | .ok _sz =>
    match request AFC_OP_FILE_SET_SIZE false truncReply with
    | .error e => .error e
    | .ok data => unpackQ data

/-- The fields packed into the FILE_SEEK request by
`pack('<QQQ', handle, 0, absolute)` (core/afc.py line 168): the handle, the
wire whence field (always 0), and the resolved absolute position. -/
structure SeekWire where
  wireHandle : Int
  wireWhence : Int
  wirePosition : Int
  deriving Repr, DecidableEq

/-- The tail of `AFCClient.file_seek`: pack the request fields (struct raises
for out-of-range values before anything is sent), dispatch the FILE_SEEK
request, and return the resolved absolute position. -/
def seekDispatch (handle : Nat) (absolute : Int) (hasPath : Bool)
    (seekReply : AFCReply) : Except PyErr (SeekWire × Int) :=
  match packQQQ handle 0 absolute with
  | .error e => .error e
  | .ok _ =>
    match request AFC_OP_FILE_SEEK hasPath seekReply with
    | .error e => .error e
    | .ok _ => .ok (⟨handle, 0, absolute⟩, absolute)

/-- Model of `AFCClient.file_seek` (core/afc.py lines 139-169).  `tell` is the value
the embedded `file_tell` exchange produced and `size` the value
`_get_size(path)` produced (`int(stat['st_size'])`); both are unsigned wire
values.  whence 0 sends the offset as-is; whence 1 resolves against the
current position and range-checks the result against `[0, size]`; whence 2
rejects positive offsets and resolves against the end; anything else raises. -/
def file_seek (handles : HandleTable) (tell size : Nat) (seekReply : AFCReply)
    (handle : Nat) (offset : Int) (whence : Int) :
    Except PyErr (SeekWire × Int) :=
  if whence = 0 then
    seekDispatch handle offset false seekReply
  else if whence = 1 then
    let absolute := (tell : Int) + offset
    match handlePath handles handle with
    | .error e => .error e
    | .ok _path =>
      if absolute < 0 ∨ absolute > (size : Int) then
        .error (mkIOSError none none)
      else seekDispatch handle absolute true seekReply
  else if whence = 2 then
    if offset > 0 then .error (mkIOSError none none)
    else
      match handlePath handles handle with
      | .error e => .error e
      | .ok _path => seekDispatch handle ((size : Int) + offset) true seekReply
  else .error (mkIOSError none none)

/-! ### Read clamping (`AFCClient.read`, core/afc.py lines 216-236) -/

/-- The READ request sizes issued by the `while size > 0` loop of
`AFCClient.read`: each request asks for at most `MAXIMUM_READ_SIZE` bytes. -/
def readChunkSizes (size : Nat) : List Nat :=
  if h : size = 0 then []
  else
    let chunk := if size > MAXIMUM_READ_SIZE then MAXIMUM_READ_SIZE else size
    chunk :: readChunkSizes (size - chunk)
termination_by size
decreasing_by simp only [MAXIMUM_READ_SIZE]; split <;> omega

/-- Model of `AFCClient.read` (core/afc.py lines 216-236) for a known path and open
handle: `statSize` is `_get_size(path)` and `tell` is `file_tell(handle)`.
The requested size is clamped to the remaining bytes when it exceeds them or
is negative (`if remaining < size or size < 0`); the result buffer is
pre-sized to the clamped size (`bytearray(size)`, which raises `ValueError`
for a negative count).  Returns the buffer length and the chunk sizes of the
dispatched READ requests. -/
def AFCRead (statSize tell : Nat) (size : Int) :
    Except PyErr (Nat × List Nat) :=
  let remaining : Int := (statSize : Int) - (tell : Int)
  let clamped : Int := if remaining < size ∨ size < 0 then remaining else size
  if clamped < 0 then .error .valueError
  else .ok (clamped.toNat, readChunkSizes clamped.toNat)

/-! ### Remove and the directory-not-empty remap (core/afc.py lines 188-209) -/

/-- Model of `AFCClient._is_dir` (core/afc.py lines 188-193): `iOSError` from the stat
request yields `False`; any other exception (such as the `_as_dict`
assertion) propagates; otherwise test `st_ifmt == 'S_IFDIR'`.  `statResult`
is the outcome of `get_stat_dict(path)`. -/
def isDir (statResult : Except PyErr (List (String × String))) :
    Except PyErr Bool :=
  match statResult with
  | .ok d => .ok (d.lookup "st_ifmt" = some "S_IFDIR")
  | .error e => if e.isIOSError then .ok false else .error e

/-- Model of `AFCClient._is_empty` (core/afc.py lines 195-197): a directory is empty
when its listing is exactly the two implicit dot entries.  `listdirResult` is
the outcome of `listdir(path)` (exceptions propagate). -/
def isEmpty (listdirResult : Except PyErr (List String)) :
    Except PyErr Bool :=
  listdirResult.map fun contents =>
    contents.length = 2 ∧ "." ∈ contents ∧ ".." ∈ contents

/-- Model of `AFCClient.remove` (core/afc.py lines 202-209): on an error whose `errno`
is `None`, when the path stats as a directory that is not empty, re-raise the
error with `errno` set to `ENOTEMPTY`; otherwise re-raise it unchanged.
Short-circuit evaluation means `_is_empty` only runs when `_is_dir` returned
true, and exceptions from either helper propagate in place of the original
error. -/
def remove (removeReply : AFCReply)
    (statResult : Except PyErr (List (String × String)))
    (listdirResult : Except PyErr (List String)) : Except PyErr Unit :=
  match request AFC_OP_REMOVE_PATH true removeReply with
  | .ok _ => .ok ()
  | .error e =>
    if e.errno = none then
      match isDir statResult with
      | .error e2 => .error e2
      | .ok false => .error e
      | .ok true =>
        match isEmpty listdirResult with
        | .error e2 => .error e2
        | .ok true => .error e
        | .ok false => .error (e.setErrno ENOTEMPTY)
    else .error e

/-! ### Client shutdown (core/afc.py lines 262-283) -/

/-- The parts of the AFC client's state that its shutdown path touches:
whether the `weakref.finalize` registration is still alive, whether
`self._service` is still set, and the handle table. -/
structure ClientState where
  finalizerAlive : Bool
  serviceOpen : Bool
  handles : HandleTable
  deriving Repr, DecidableEq

/-- The externally visible actions shutdown can perform. -/
inductive CloseAction where
  | fileCloseRequest (handle : Nat)
  | serviceClose
  deriving Repr, DecidableEq

/-- Model of `AFCClient.__close` (core/afc.py lines 262-276): when the service is
still set, best-effort close every open handle (each `file_close` pops its
table entry and sends a FILE_CLOSE request; exceptions are logged, never
raised), close the service channel (exceptions logged), and clear the
service reference.  When the service was already cleared, do nothing. -/
def privateClose (s : ClientState) : ClientState × List CloseAction :=
  if s.serviceOpen then
    ({ s with serviceOpen := false, handles := [] },
     s.handles.map (fun p => CloseAction.fileCloseRequest p.1) ++
       [CloseAction.serviceClose])
  else (s, [])

/-- Model of `AFCClient.close` (core/afc.py lines 278-280): `__close` runs only when
detaching the finalizer succeeds, so only the first of the explicit `close`,
`__del__`, and finalizer paths performs the shutdown. -/
def close (s : ClientState) : ClientState × List CloseAction :=
  if s.finalizerAlive then privateClose { s with finalizerAlive := false }
  else (s, [])

/-! ### Pairing-record lookup and validation (core/lockdown.py lines 51-113) -/

/-- A persisted pairing record (a property-list dictionary; its contents are
irrelevant to the lookup logic). -/
abbrev PairRecord := List (String × String)

/-- The outcome of the record-lookup prelude of `validate_pairing`. -/
inductive LookupOutcome where
  | found (r : PairRecord)
  | notPaired
  | raised (e : PyErr)
  deriving Repr, DecidableEq

/-- The record-lookup prelude of `LockdownClient.validate_pairing`
(core/lockdown.py lines 71-88).  The `try` block runs
`plistlib.load(folder + '%s.plist' % self.identifier)`: `plistlib.load`
requires a binary file object but is handed the path string, so it raises
`AttributeError` no matter what the system-wide (iTunes/lockdown) store
holds, and the `except` branch always runs — hence `itunesStore` does not
influence the result.  That branch consults exactly one fallback, chosen by
the device's iOS version: above 13.0 the usbmuxd pair-record store (where a
missing record makes `get_pair_record` raise `KeyError` on the absent
`PairRecordData` field), otherwise the local application cache (whose miss
returns `False`, the "not paired" outcome). -/
def pairRecordLookup (itunesStore : Option PairRecord) (iosGt13 : Bool)
    (muxStore : Option PairRecord) (cacheStore : Option PairRecord) :
    LookupOutcome :=
  match itunesStore with
  | _ =>
    if iosGt13 then
      match muxStore with
      | some r => .found r
      | none => .raised .keyError
    else
      match cacheStore with
      | some r => .found r
      | none => .notPaired

/-- The outcome of `validate_pairing` as observed by `__init__`: returned
`True`, returned `False`, or an exception propagated. -/
inductive VPOutcome where
  | paired
  | notPaired
  | raised (e : PyErr)
  deriving Repr, DecidableEq

/-- Model of `LockdownClient.validate_pairing` (core/lockdown.py lines 71-113).  After
a record is found: for iOS below 11.0 an explicit ValidatePair request is
sent and a missing or error response returns `False`
(`validatePairError` is that condition); otherwise the session start
(StartSession, optional SSL upgrade) proceeds and the method returns `True`
(the session bookkeeping mutates fields but not the return value). -/
def validate_pairing (itunesStore : Option PairRecord) (iosGt13 : Bool)
    (muxStore cacheStore : Option PairRecord) (iosLt11 : Bool)
    (validatePairError : Bool) : VPOutcome :=
  match pairRecordLookup itunesStore iosGt13 muxStore cacheStore with
  | .raised e => .raised e
  | .notPaired => .notPaired
  | .found _ => if iosLt11 ∧ validatePairError then .notPaired else .paired

/-- The pairing decision in `LockdownClient.__init__` (core/lockdown.py lines
51-56): `if not self.validate_pairing(): self.pair()`.  Returns whether a
Pair request is sent; an exception from `validate_pairing` propagates and no
Pair request is sent. -/
def initSendsPair (itunesStore : Option PairRecord) (iosGt13 : Bool)
    (muxStore cacheStore : Option PairRecord) (iosLt11 : Bool)
    (validatePairError : Bool) : Except PyErr Bool :=
  match validate_pairing itunesStore iosGt13 muxStore cacheStore iosLt11
      validatePairError with
  | .paired => .ok false
  | .notPaired => .ok true
  | .raised e => .error e

/-! ### Mux connection (usbmux/usbmux.py, usbmux/protocol.py) -/

def TYPE_RESULT : Nat := 1

def TYPE_CONNECT : Nat := 2

def TYPE_LISTEN : Nat := 3

def TYPE_PLIST : Nat := 8

/-- Model of `BinaryProtocol.VERSION` (protocol.py line 21). -/
def BINARY_VERSION : Nat := 0

/-- Model of `PlistProtocol.VERSION` (protocol.py line 84). -/
def PLIST_VERSION : Nat := 1

/-- The per-connection mux state: the next control tag (`self.pkttag`) and
the protocol's relay-mode flag (`self.proto.connected`). -/
structure MuxState where
  pkttag : Nat
  connected : Bool
  deriving Repr, DecidableEq

/-- One incoming mux control packet, as decoded by
`BinaryProtocol.getpacket`: the header version, response type and tag, plus
the payload fields the modelled callers read (`data['Number']` of a Result
packet, `payload['PairRecordData']` of a plist reply). -/
structure MuxPacket where
  version : Nat
  resp : Nat
  tag : Nat
  number : Nat
  pairRecordData : Option PairRecord
  deriving Repr, DecidableEq

/-- The guard of `BinaryProtocol.sendpacket` (protocol.py lines 56-62): a
connected (relay-mode) mux raises `MuxError` before any control packet goes
out.  `PlistProtocol.sendpacket` wraps its payload and defers to this
method, so it shares the guard. -/
def sendpacket (connected : Bool) : Except PyErr Unit :=
  if connected then .error .muxError else .ok ()

/-- Model of `BinaryProtocol.getpacket` (protocol.py lines 64-74): guard against
relay mode, then decode one packet, raising `MuxVersionError` on a header
version mismatch. -/
def getpacket (protoVersion : Nat) (connected : Bool) (p : MuxPacket) :
    Except PyErr MuxPacket :=
  if connected then .error .muxError
  else if p.version ≠ protoVersion then .error .muxVersionError
  else .ok p

/-- Model of `PlistProtocol.getpacket` (protocol.py lines 102-107): the binary
decode, then a non-plist packet type is rejected. -/
def plistGetpacket (connected : Bool) (p : MuxPacket) :
    Except PyErr MuxPacket :=
  match getpacket PLIST_VERSION connected p with
  | .error e => .error e
  | .ok q => if q.resp ≠ TYPE_PLIST then .error .muxError else .ok q

/-- Model of `MuxConnection._getreply` (usbmux.py lines 51-57): one packet; a Result
packet yields its tag and number, anything else raises `MuxError` (the
`while` loop never iterates because the `else` branch raises). -/
def getreply (connected : Bool) (p : MuxPacket) : Except PyErr (Nat × Nat) :=
  match getpacket BINARY_VERSION connected p with
  | .error e => .error e
  | .ok q =>
    if q.resp = TYPE_RESULT then .ok (q.tag, q.number) else .error .muxError

/-- Model of `MuxConnection._exchange` (usbmux.py lines 81-88): remember the current
tag, increment it, send the request, read the reply, and reject a reply
whose tag differs from the request's; on a match return `data['Number']`. -/
def muxExchange (st : MuxState) (p : MuxPacket) :
    Except PyErr (MuxState × Nat) :=
  let mytag := st.pkttag
  let st' : MuxState := { st with pkttag := st.pkttag + 1 }
  match sendpacket st'.connected with
  | .error e => .error e
  | .ok _ =>
    match getreply st'.connected p with
    | .error e => .error e
    | .ok (recvtag, number) =>
      if recvtag ≠ mytag then .error (.muxTagMismatch mytag recvtag)
      else .ok (st', number)

/-- Model of `MuxConnection.listen` (usbmux.py lines 90-93): a Listen exchange whose
non-zero result raises. -/
def listen (st : MuxState) (p : MuxPacket) : Except PyErr MuxState :=
  match muxExchange st p with
  | .error e => .error e
  | .ok (st', ret) => if ret ≠ 0 then .error .muxError else .ok st'

/-- The guard of `MuxConnection.process` (usbmux.py lines 95-103): a
connected mux raises `MuxError` before the readiness wait; afterwards the
listener's device set is updated (bookkeeping no claim touches, elided). -/
def processControl (st : MuxState) : Except PyErr Unit :=
  if st.connected then .error .muxError else .ok ()

/-- Model of `MuxConnection.connect` (usbmux.py lines 105-112): a Connect exchange
whose non-zero result raises; on success the protocol is flagged connected
(relay mode) and the raw socket is handed to the caller. -/
def muxConnect (st : MuxState) (p : MuxPacket) : Except PyErr MuxState :=
  match muxExchange st p with
  | .error e => .error e
  | .ok (st', ret) =>
    if ret ≠ 0 then .error .muxError
    else .ok { st' with connected := true }

/-- Model of `UsbmuxdClient.get_pair_record` (usbmux.py lines 159-169): a
ReadPairRecord request over the plist protocol, correlated by tag; a tag
mismatch raises, otherwise the reply's `PairRecordData` field is parsed (a
reply without that field raises `KeyError`). -/
def get_pair_record (st : MuxState) (p : MuxPacket) :
    Except PyErr (MuxState × PairRecord) :=
  let tag := st.pkttag
  let st' : MuxState := { st with pkttag := st.pkttag + 1 }
  match sendpacket st'.connected with
  | .error e => .error e
  | .ok _ =>
    match plistGetpacket st'.connected p with
    | .error e => .error e
    | .ok q =>
      if q.tag ≠ tag then .error (.muxTagMismatch tag q.tag)
      else
        match q.pairRecordData with
        | some r => .ok (st', r)
        | none => .error .keyError

/-! ## Theorems -/

theorem pySplit_cons_sep (rest : List Nat) :
    pySplit 0 (0 :: rest) = [] :: pySplit 0 rest := by
  simp [pySplit]

theorem pySplit_ne_nil (l : List Nat) : pySplit 0 l ≠ [] := by
  cases l with
  | nil => simp [pySplit]
  | cons b rest =>
    simp only [pySplit]
    split
    · simp
    · split <;> simp

theorem pySplit_append_seg (s rest : List Nat) (h : 0 ∉ s) :
    pySplit 0 (s ++ 0 :: rest) = s :: pySplit 0 rest := by
  induction s with
  | nil => simp [pySplit_cons_sep]
  | cons b s ih =>
    have hb : b ≠ 0 := fun hb => h (by simp [hb])
    have hs : 0 ∉ s := fun hs => h (List.mem_cons_of_mem _ hs)
    simp only [List.cons_append, pySplit, if_neg hb, List.append_eq]
    rw [ih hs]

theorem pySplit_nulJoin (segs : List (List Nat)) (h : ∀ s ∈ segs, 0 ∉ s) :
    pySplit 0 (nulJoin segs) = segs ++ [[]] := by
  induction segs with
  | nil => simp [nulJoin, pySplit]
  | cons s segs ih =>
    have hs : 0 ∉ s := h s (List.mem_cons_self s segs)
    have hrest : ∀ t ∈ segs, 0 ∉ t := fun t ht => h t (List.mem_cons_of_mem _ ht)
    have : nulJoin (s :: segs) = s ++ 0 :: nulJoin segs := by
      simp [nulJoin]
    rw [this, pySplit_append_seg s _ hs, ih hrest]
    rfl

/-- C9: a byte string of NUL-terminated segments with an even segment count
decodes to the dictionary of alternating key/value pairs, and an odd segment
count is rejected as a decoding error (the `_as_dict` assertion fails). -/
theorem asDict_spec (segs : List (List Nat)) (h : ∀ s ∈ segs, 0 ∉ s) :
    (segs.length % 2 = 0 →
      asDict (nulJoin segs) = .ok (pairUp segs)) ∧
    (segs.length % 2 = 1 →
      asDict (nulJoin segs) = .error .assertionError) := by
  unfold asDict
  rw [pySplit_nulJoin segs h, List.dropLast_concat]
  constructor
  · intro heven
    simp [heven]
  · intro hodd
    have : ¬ segs.length % 2 = 0 := by omega
    simp [this]

theorem asDict_spec_witness :
    (∀ s ∈ [[107, 49], [118, 49], [107, 50], [118, 50]], (0 : Nat) ∉ s) ∧
    asDict (nulJoin [[107, 49], [118, 49], [107, 50], [118, 50]]) =
      .ok [([107, 49], [118, 49]), ([107, 50], [118, 50])] := by
  refine ⟨by decide, ?_⟩
  have h :=
    (asDict_spec [[107, 49], [118, 49], [107, 50], [118, 50]] (by decide)).1
      (by decide)
  rw [h]
  rfl

theorem uint64le_length (n : Nat) : (uint64le n).length = 8 := rfl

theorem writeChunks_flatten (l : List Nat) : (writeChunks l).flatten = l := by
  induction l using writeChunks.induct with
  | case1 => simp [writeChunks]
  | case2 b rest ih =>
    rw [writeChunks, List.flatten_cons, ih, List.take_append_drop]

theorem writeChunks_mem_length (l : List Nat) :
    ∀ c ∈ writeChunks l, 0 < c.length ∧ c.length ≤ MAXIMUM_WRITE_SIZE := by
  induction l using writeChunks.induct with
  | case1 => simp [writeChunks]
  | case2 b rest ih =>
    rw [writeChunks]
    intro c hc
    rcases List.mem_cons.mp hc with h | h
    · subst h
      refine ⟨?_, ?_⟩ <;> simp [List.length_take, MAXIMUM_WRITE_SIZE]
    · exact ih c h

theorem writeLoop_spec (handle : Nat) (replies : Nat → AFCReply)
    (hok : ∀ i, ∃ d, request AFC_OP_WRITE true (replies i) = .ok d)
    (chunks : List (List Nat)) :
    ∀ packetNum i,
      (writeLoop handle replies packetNum i chunks).1.map Prod.snd =
        chunks.map (fun c => uint64le handle ++ c) ∧
      (writeLoop handle replies packetNum i chunks).2 = .ok () ∧
      ∀ pc ∈ (writeLoop handle replies packetNum i chunks).1,
        pc.1.thisLength = 48 ∧ pc.1.operation = AFC_OP_WRITE ∧
        pc.1.entireLength = 40 + pc.2.length := by
  induction chunks with
  | nil => intro pn i; simp [writeLoop]
  | cons c cs ih =>
    intro pn i
    obtain ⟨d, hd⟩ := hok i
    have ihh := ih (pn + 1) (i + 1)
    rcases hw : writeLoop handle replies (pn + 1) (i + 1) cs with ⟨rest, r⟩
    rw [hw] at ihh
    simp only [writeLoop, hd, hw]
    refine ⟨by simpa using ihh.1, by simpa using ihh.2.1, ?_⟩
    intro pc hpc
    rcases List.mem_cons.mp (by simpa using hpc) with h | h
    · subst h
      refine ⟨rfl, rfl, ?_⟩
      simp [sendPacketHeader]
    · exact ihh.2.2 pc h

/-- C3: `write` splits the payload into consecutive chunks of at most
32768 bytes, sent in order as one WRITE request each; every request header
has `this_length` hardcoded to 48 while `entire_length` is 40 plus the true
request-data length (8-byte handle plus the chunk); `write` returns the
total payload length. -/
theorem write_chunking_spec (handle packetNum : Nat) (data : List Nat)
    (replies : Nat → AFCReply)
    (hok : ∀ i, ∃ d, request AFC_OP_WRITE true (replies i) = .ok d) :
    (writeChunks data).flatten = data ∧
    (∀ c ∈ writeChunks data, 0 < c.length ∧ c.length ≤ 32768) ∧
    ((AFCWrite handle packetNum data replies).1.map Prod.snd =
      (writeChunks data).map (fun c => uint64le handle ++ c)) ∧
    (∀ pc ∈ (AFCWrite handle packetNum data replies).1,
      pc.1.thisLength = 48 ∧ pc.1.operation = AFC_OP_WRITE ∧
      pc.1.entireLength = 40 + pc.2.length ∧
      ∃ c ∈ writeChunks data, pc.2 = uint64le handle ++ c ∧
        pc.1.entireLength = 40 + (8 + c.length)) ∧
    (AFCWrite handle packetNum data replies).2 = .ok data.length := by
  have hloop := writeLoop_spec handle replies hok (writeChunks data) packetNum 0
  rcases hw : writeLoop handle replies packetNum 0 (writeChunks data)
    with ⟨pkts, r⟩
  rw [hw] at hloop
  have hfst : (AFCWrite handle packetNum data replies).1 = pkts := by
    simp [AFCWrite, hw]
  have hsnd : (AFCWrite handle packetNum data replies).2 =
      r.map fun _ => data.length := by
    simp [AFCWrite, hw]
  refine ⟨writeChunks_flatten data, ?_, ?_, ?_, ?_⟩
  · intro c hc
    have := writeChunks_mem_length data c hc
    simpa [MAXIMUM_WRITE_SIZE] using this
  · rw [hfst]; exact hloop.1
  · intro pc hpc
    rw [hfst] at hpc
    obtain ⟨h48, hop, hlen⟩ := hloop.2.2 pc hpc
    refine ⟨h48, hop, hlen, ?_⟩
    have hmem : pc.2 ∈ pkts.map Prod.snd := List.mem_map_of_mem Prod.snd hpc
    rw [hloop.1] at hmem
    obtain ⟨c, hc, hce⟩ := List.mem_map.mp hmem
    refine ⟨c, hc, hce.symm, ?_⟩
    rw [hlen, ← hce]
    simp [uint64le_length]
  · have hr : r = Except.ok () := hloop.2.1
    rw [hsnd, hr]
    rfl

theorem write_chunking_spec_witness :
    (∀ i : Nat, ∃ d,
        request AFC_OP_WRITE true ((fun _ => AFCReply.statusReply 0) i) = .ok d) ∧
    (AFCWrite 3 0 (List.replicate 5 7) (fun _ => .statusReply 0)).2 = .ok 5 := by
  have hok : ∀ i : Nat, ∃ d,
      request AFC_OP_WRITE true ((fun _ => AFCReply.statusReply 0) i) = .ok d :=
    fun _ => ⟨uint64le 0, rfl⟩
  refine ⟨hok, ?_⟩
  have h := (write_chunking_spec 3 0 (List.replicate 5 7)
    (fun _ => .statusReply 0) hok).2.2.2.2
  simpa using h

theorem readChunkSizes_sum (n : Nat) : (readChunkSizes n).sum = n := by
  induction n using readChunkSizes.induct with
  | case1 => simp [readChunkSizes]
  | case2 n h chunk ih =>
    have hchunk : chunk =
        if h : n > MAXIMUM_READ_SIZE then MAXIMUM_READ_SIZE else n := rfl
    rw [readChunkSizes]
    simp only [dif_neg h, List.sum_cons]
    rw [hchunk] at ih
    by_cases hgt : n > MAXIMUM_READ_SIZE
    · simp [hgt] at ih ⊢
      omega
    · simp [hgt] at ih ⊢
      omega

theorem readChunkSizes_mem (n : Nat) :
    ∀ c ∈ readChunkSizes n, 0 < c ∧ c ≤ MAXIMUM_READ_SIZE := by
  induction n using readChunkSizes.induct with
  | case1 => simp [readChunkSizes]
  | case2 n h chunk ih =>
    have hchunk : chunk =
        if h : n > MAXIMUM_READ_SIZE then MAXIMUM_READ_SIZE else n := rfl
    rw [readChunkSizes]
    have hmax : MAXIMUM_READ_SIZE = 65536 := rfl
    simp only [dif_neg h]
    intro c hc
    rw [hchunk] at ih
    by_cases hgt : n > MAXIMUM_READ_SIZE
    · simp [hgt] at ih hc
      rcases hc with h1 | h1
      · subst h1; omega
      · exact ih c h1
    · simp [hgt] at ih hc
      rcases hc with h1 | h1
      · subst h1; omega
      · exact ih c h1

/-- C10: `read` with a non-negative requested size returns a buffer of length
`min(size, stat_size - tell)` — a request beyond the bytes remaining from the
current position is silently clamped to the remainder — and every individual
READ request asks for at most 65536 bytes. -/
theorem read_clamp_spec (statSize tell : Nat) (size : Int)
    (htell : tell ≤ statSize) (hsize : 0 ≤ size) :
    ∃ bufLen chunks,
      AFCRead statSize tell size = .ok (bufLen, chunks) ∧
      (bufLen : Int) = min size ((statSize : Int) - (tell : Int)) ∧
      chunks.sum = bufLen ∧
      ∀ c ∈ chunks, 0 < c ∧ c ≤ 65536 := by
  have hrem : (0 : Int) ≤ (statSize : Int) - (tell : Int) := by
    omega
  unfold AFCRead
  by_cases hlt : (statSize : Int) - (tell : Int) < size ∨ size < 0
  · have hc : (statSize : Int) - (tell : Int) < size := by omega
    refine ⟨((statSize : Int) - (tell : Int)).toNat,
      readChunkSizes ((statSize : Int) - (tell : Int)).toNat, ?_, ?_, ?_, ?_⟩
    · simp only [if_pos hlt, if_neg (not_lt.mpr hrem)]
    · rw [Int.toNat_of_nonneg hrem]
      omega
    · exact readChunkSizes_sum _
    · intro c hcm
      have := readChunkSizes_mem _ c hcm
      simpa [MAXIMUM_READ_SIZE] using this
  · have hle : size ≤ (statSize : Int) - (tell : Int) := by omega
    refine ⟨size.toNat, readChunkSizes size.toNat, ?_, ?_, ?_, ?_⟩
    · simp only [if_neg hlt, if_neg (not_lt.mpr hsize)]
    · rw [Int.toNat_of_nonneg hsize]
      omega
    · exact readChunkSizes_sum _
    · intro c hcm
      have := readChunkSizes_mem _ c hcm
      simpa [MAXIMUM_READ_SIZE] using this

theorem read_clamp_spec_witness :
    (4 ≤ 10 ∧ (0 : Int) ≤ 100) ∧
    ∃ bufLen chunks,
      AFCRead 10 4 100 = .ok (bufLen, chunks) ∧
      (bufLen : Int) = min 100 ((10 : Int) - (4 : Int)) ∧
      chunks.sum = bufLen ∧
      ∀ c ∈ chunks, 0 < c ∧ c ≤ 65536 :=
  ⟨⟨by decide, by decide⟩, read_clamp_spec 10 4 100 (by decide) (by decide)⟩

theorem seekDispatch_ok {handle : Nat} {absolute : Int} {hasPath : Bool}
    {reply : AFCReply} {out : SeekWire × Int}
    (h : seekDispatch handle absolute hasPath reply = .ok out) :
    out = (⟨handle, 0, absolute⟩, absolute) := by
  cases h1 : packQQQ (handle : Int) 0 absolute with
  | error e =>
    simp only [seekDispatch, h1] at h
    exact Except.noConfusion h
  | ok x =>
    cases h2 : request AFC_OP_FILE_SEEK hasPath reply with
    | error e =>
      simp only [seekDispatch, h1, h2] at h
      exact Except.noConfusion h
    | ok d =>
      simp only [seekDispatch, h1, h2, Except.ok.injEq] at h
      exact h.symm

theorem seekDispatch_success {handle : Nat} {absolute : Int} {hasPath : Bool}
    {reply : AFCReply} (h0 : 0 ≤ absolute) (h1 : absolute < 2 ^ 64)
    (h2 : handle < 2 ^ 64)
    (h3 : ∃ d, request AFC_OP_FILE_SEEK hasPath reply = .ok d) :
    seekDispatch handle absolute hasPath reply =
      .ok (⟨handle, 0, absolute⟩, absolute) := by
  obtain ⟨d, hd⟩ := h3
  have p1 : packQ (handle : Int) = .ok (uint64le ((handle : Int)).toNat) := by
    rw [packQ, if_pos]
    exact ⟨Int.natCast_nonneg handle, by omega⟩
  have p2 : packQ 0 = .ok (uint64le (0 : Int).toNat) := by
    rw [packQ, if_pos]
    norm_num
  have p3 : packQ absolute = .ok (uint64le absolute.toNat) := by
    rw [packQ, if_pos]
    exact ⟨h0, by omega⟩
  have hP : packQQQ (handle : Int) 0 absolute =
      .ok (uint64le ((handle : Int)).toNat ++ uint64le (0 : Int).toNat ++
        uint64le absolute.toNat) := by
    rw [packQQQ, p1, p2, p3]
  simp only [seekDispatch, hP, hd]

theorem file_seek_whence0 (handles : HandleTable) (tell size : Nat)
    (seekReply : AFCReply) (handle : Nat) (offset : Int) :
    file_seek handles tell size seekReply handle offset 0 =
      seekDispatch handle offset false seekReply := by
  rw [file_seek, if_pos rfl]

theorem file_seek_whence1 (handles : HandleTable) (tell size : Nat)
    (seekReply : AFCReply) (handle : Nat) (offset : Int) (path : String)
    (hpath : handlePath handles handle = .ok path) :
    file_seek handles tell size seekReply handle offset 1 =
      if (tell : Int) + offset < 0 ∨ (tell : Int) + offset > (size : Int) then
        .error (mkIOSError none none)
      else seekDispatch handle ((tell : Int) + offset) true seekReply := by
  rw [file_seek, if_neg (by norm_num), if_pos rfl, hpath]

theorem file_seek_whence2 (handles : HandleTable) (tell size : Nat)
    (seekReply : AFCReply) (handle : Nat) (offset : Int) (path : String)
    (hpath : handlePath handles handle = .ok path) :
    file_seek handles tell size seekReply handle offset 2 =
      if offset > 0 then .error (mkIOSError none none)
      else seekDispatch handle ((size : Int) + offset) true seekReply := by
  rw [file_seek, if_neg (by norm_num), if_neg (by norm_num), if_pos rfl, hpath]

theorem file_seek_whence_invalid (handles : HandleTable) (tell size : Nat)
    (seekReply : AFCReply) (handle : Nat) (offset : Int) (whence : Int)
    (h0 : whence ≠ 0) (h1 : whence ≠ 1) (h2 : whence ≠ 2) :
    file_seek handles tell size seekReply handle offset whence =
      .error (mkIOSError none none) := by
  rw [file_seek, if_neg h0, if_neg h1, if_neg h2]

/-- C1: `file_seek` resolution.  With whence 0 the resolved position is the
offset, sent unchanged; with whence 1 it is `tell + offset` and the call
fails when that lies outside `[0, size]`; with whence 2 the call fails when
`offset > 0` and otherwise resolves to `size + offset`; any other whence
fails; every successful call sent the resolved absolute position with the
wire whence field 0 and returns that position. -/
theorem file_seek_spec (handles : HandleTable) (handle : Nat) (path : String)
    (tell size : Nat) (offset : Int) (seekReply : AFCReply)
    (hh : handles.lookup handle = some path) :
    (∀ out, file_seek handles tell size seekReply handle offset 0 = .ok out →
      out = (⟨handle, 0, offset⟩, offset)) ∧
    ((0 ≤ offset ∧ offset < 2 ^ 64 ∧ handle < 2 ^ 64 ∧
        (∃ d, request AFC_OP_FILE_SEEK false seekReply = .ok d)) →
      file_seek handles tell size seekReply handle offset 0 =
        .ok (⟨handle, 0, offset⟩, offset)) ∧
    (((tell : Int) + offset < 0 ∨ (tell : Int) + offset > (size : Int)) →
      ∃ e, file_seek handles tell size seekReply handle offset 1 = .error e) ∧
    (∀ out, file_seek handles tell size seekReply handle offset 1 = .ok out →
      out = (⟨handle, 0, (tell : Int) + offset⟩, (tell : Int) + offset)) ∧
    (offset > 0 →
      ∃ e, file_seek handles tell size seekReply handle offset 2 = .error e) ∧
    (∀ out, file_seek handles tell size seekReply handle offset 2 = .ok out →
      out = (⟨handle, 0, (size : Int) + offset⟩, (size : Int) + offset)) ∧
    (∀ whence : Int, whence ≠ 0 → whence ≠ 1 → whence ≠ 2 →
      ∃ e, file_seek handles tell size seekReply handle offset whence =
        .error e) := by
  have hpath : handlePath handles handle = .ok path := by
    rw [handlePath, hh]
  refine ⟨?_, ?_, ?_, ?_, ?_, ?_, ?_⟩
  · intro out h
    rw [file_seek_whence0] at h
    exact seekDispatch_ok h
  · rintro ⟨h0, h1, h2, h3⟩
    rw [file_seek_whence0]
    exact seekDispatch_success h0 h1 h2 h3
  · intro hrange
    rw [file_seek_whence1 handles tell size seekReply handle offset path hpath,
      if_pos hrange]
    exact ⟨_, rfl⟩
  · intro out h
    rw [file_seek_whence1 handles tell size seekReply handle offset path hpath]
      at h
    by_cases hrange :
        (tell : Int) + offset < 0 ∨ (tell : Int) + offset > (size : Int)
    · rw [if_pos hrange] at h
      exact absurd h (by simp)
    · rw [if_neg hrange] at h
      exact seekDispatch_ok h
  · intro hpos
    rw [file_seek_whence2 handles tell size seekReply handle offset path hpath,
      if_pos hpos]
    exact ⟨_, rfl⟩
  · intro out h
    rw [file_seek_whence2 handles tell size seekReply handle offset path hpath]
      at h
    by_cases hpos : offset > 0
    · rw [if_pos hpos] at h
      exact absurd h (by simp)
    · rw [if_neg hpos] at h
      exact seekDispatch_ok h
  · intro whence h0 h1 h2
    rw [file_seek_whence_invalid handles tell size seekReply handle offset
      whence h0 h1 h2]
    exact ⟨_, rfl⟩

theorem file_seek_spec_witness :
    ([(3, "/a")] : HandleTable).lookup 3 = some "/a" ∧
    file_seek [(3, "/a")] 5 10 (.statusReply 0) 3 7 0 =
      .ok (⟨3, 0, 7⟩, 7) ∧
    (∃ e, file_seek [(3, "/a")] 5 10 (.statusReply 0) 3 6 1 = .error e) ∧
    (∃ e, file_seek [(3, "/a")] 5 10 (.statusReply 0) 3 1 2 = .error e) := by
  have hh : ([(3, "/a")] : HandleTable).lookup 3 = some "/a" := rfl
  have h7 := file_seek_spec [(3, "/a")] 3 "/a" 5 10 7 (.statusReply 0) hh
  have h6 := file_seek_spec [(3, "/a")] 3 "/a" 5 10 6 (.statusReply 0) hh
  have h1 := file_seek_spec [(3, "/a")] 3 "/a" 5 10 1 (.statusReply 0) hh
  refine ⟨hh, ?_, ?_, ?_⟩
  · exact h7.2.1 ⟨by norm_num, by norm_num, by norm_num, ⟨uint64le 0, rfl⟩⟩
  · exact h6.2.2.1 (by norm_num)
  · exact h1.2.2.2.2.1 (by norm_num)

theorem muxExchange_ok_iff (st : MuxState) (p : MuxPacket) (st' : MuxState)
    (n : Nat) (hconn : st.connected = false) :
    muxExchange st p = .ok (st', n) ↔
      (p.version = BINARY_VERSION ∧ p.resp = TYPE_RESULT ∧
       p.tag = st.pkttag ∧ st' = ⟨st.pkttag + 1, false⟩ ∧ n = p.number) := by
  constructor
  · intro h
    simp [muxExchange, sendpacket, getreply, getpacket, hconn] at h
    split_ifs at h with h1
    by_cases h2 : p.resp = TYPE_RESULT
    · simp [h2] at h
      by_cases h3 : p.tag = st.pkttag
      · rw [if_pos h3] at h
        have h4 := Except.ok.inj h
        exact ⟨h1, h2, h3, (congrArg Prod.fst h4).symm,
          (congrArg Prod.snd h4).symm⟩
      · rw [if_neg h3] at h
        exact Except.noConfusion h
    · simp [h2] at h
  · rintro ⟨h1, h2, h3, h4, h5⟩
    simp [muxExchange, sendpacket, getreply, getpacket, hconn, h1, h2, h3,
      h4, h5]

theorem get_pair_record_ok_iff (st : MuxState) (p : MuxPacket)
    (st' : MuxState) (r : PairRecord) (hconn : st.connected = false) :
    get_pair_record st p = .ok (st', r) ↔
      (p.version = PLIST_VERSION ∧ p.resp = TYPE_PLIST ∧
       p.tag = st.pkttag ∧ st' = ⟨st.pkttag + 1, false⟩ ∧
       p.pairRecordData = some r) := by
  constructor
  · intro h
    simp [get_pair_record, sendpacket, plistGetpacket, getpacket, hconn] at h
    split_ifs at h with h1
    by_cases h2 : p.resp = TYPE_PLIST
    · simp [h2] at h
      by_cases h3 : p.tag = st.pkttag
      · rw [if_pos h3] at h
        cases hd : p.pairRecordData with
        | none => rw [hd] at h; exact Except.noConfusion h
        | some rec =>
          rw [hd] at h
          have h4 := Except.ok.inj h
          exact ⟨h1, h2, h3, (congrArg Prod.fst h4).symm,
            congrArg some (congrArg Prod.snd h4)⟩
      · rw [if_neg h3] at h
        exact Except.noConfusion h
    · simp [h2] at h
  · rintro ⟨h1, h2, h3, h4, h5⟩
    simp [get_pair_record, sendpacket, plistGetpacket, getpacket, hconn, h1,
      h2, h3, h4, h5]

theorem muxExchange_connected (st : MuxState) (p : MuxPacket)
    (hconn : st.connected = true) :
    muxExchange st p = .error .muxError := by
  simp [muxExchange, sendpacket, hconn]

theorem get_pair_record_connected (st : MuxState) (p : MuxPacket)
    (hconn : st.connected = true) :
    get_pair_record st p = .error .muxError := by
  simp [get_pair_record, sendpacket, hconn]

/-- C5: in every control exchange (`_exchange`, used by Listen and Connect,
and `get_pair_record` for ReadPairRecord) a reply whose tag differs from the
outstanding request's tag is rejected with a protocol error, and reply data
reaches the caller only when the tags agree. -/
theorem mux_tag_correlation (st : MuxState) (p : MuxPacket)
    (hconn : st.connected = false) :
    (p.version = BINARY_VERSION → p.resp = TYPE_RESULT → p.tag ≠ st.pkttag →
      muxExchange st p = .error (.muxTagMismatch st.pkttag p.tag)) ∧
    (∀ st' n, muxExchange st p = .ok (st', n) →
      p.tag = st.pkttag ∧ n = p.number) ∧
    (p.version = PLIST_VERSION → p.resp = TYPE_PLIST → p.tag ≠ st.pkttag →
      get_pair_record st p = .error (.muxTagMismatch st.pkttag p.tag)) ∧
    (∀ st' r, get_pair_record st p = .ok (st', r) →
      p.tag = st.pkttag ∧ p.pairRecordData = some r) := by
  refine ⟨?_, ?_, ?_, ?_⟩
  · intro hv hr ht
    simp [muxExchange, sendpacket, getreply, getpacket, hconn, hv, hr, ht]
  · intro st' n h
    obtain ⟨-, -, h3, -, h5⟩ := (muxExchange_ok_iff st p st' n hconn).mp h
    exact ⟨h3, h5⟩
  · intro hv hr ht
    simp [get_pair_record, sendpacket, plistGetpacket, getpacket, hconn, hv,
      hr, ht]
  · intro st' r h
    obtain ⟨-, -, h3, -, h5⟩ := (get_pair_record_ok_iff st p st' r hconn).mp h
    exact ⟨h3, h5⟩

theorem mux_tag_correlation_witness :
    (MuxState.mk 4 false).connected = false ∧
    muxExchange ⟨4, false⟩ ⟨0, 1, 9, 0, none⟩ =
      .error (.muxTagMismatch 4 9) ∧
    (∀ st' n, muxExchange ⟨4, false⟩ ⟨0, 1, 4, 7, none⟩ = .ok (st', n) →
      (MuxPacket.mk 0 1 4 7 none).tag = 4 ∧ n = 7) := by
  refine ⟨rfl, ?_, ?_⟩
  · exact (mux_tag_correlation ⟨4, false⟩ ⟨0, 1, 9, 0, none⟩ rfl).1 rfl rfl
      (by decide)
  · exact (mux_tag_correlation ⟨4, false⟩ ⟨0, 1, 4, 7, none⟩ rfl).2.1

/-- C8: once a connect succeeds the channel is permanently in raw relay
mode: every later control operation (listen, process, another connect, a
pair-record exchange, any exchange) fails with a transport error, a
successful connect leaves the relay flag set, and no operation ever clears
it. -/
theorem mux_relay_mode_spec (st : MuxState) (p : MuxPacket)
    (hconn : st.connected = true) :
    (∃ e, listen st p = .error e) ∧
    (∃ e, processControl st = .error e) ∧
    (∃ e, muxConnect st p = .error e) ∧
    (∃ e, get_pair_record st p = .error e) ∧
    (∃ e, muxExchange st p = .error e) ∧
    (∀ st₀ q st₁, muxConnect st₀ q = .ok st₁ → st₁.connected = true) ∧
    (∀ st₀ q st₁, listen st₀ q = .ok st₁ → st₁.connected = st₀.connected) ∧
    (∀ st₀ q st₁ n, muxExchange st₀ q = .ok (st₁, n) →
      st₁.connected = st₀.connected) ∧
    (∀ st₀ q st₁ r, get_pair_record st₀ q = .ok (st₁, r) →
      st₁.connected = st₀.connected) := by
  have hexchange : ∀ (st₀ : MuxState) (q : MuxPacket) st₁ n,
      muxExchange st₀ q = .ok (st₁, n) → st₁.connected = st₀.connected := by
    intro st₀ q st₁ n h
    by_cases hc : st₀.connected = false
    · obtain ⟨-, -, -, h4, -⟩ := (muxExchange_ok_iff st₀ q st₁ n hc).mp h
      rw [h4, hc]
    · rw [muxExchange_connected st₀ q (Bool.not_eq_false _ ▸ hc)] at h
      exact Except.noConfusion h
  refine ⟨?_, ?_, ?_, ?_, ⟨_, muxExchange_connected st p hconn⟩, ?_, ?_,
    hexchange, ?_⟩
  · exact ⟨.muxError, by simp [listen, muxExchange_connected st p hconn]⟩
  · exact ⟨.muxError, by simp [processControl, hconn]⟩
  · exact ⟨.muxError, by simp [muxConnect, muxExchange_connected st p hconn]⟩
  · exact ⟨.muxError, get_pair_record_connected st p hconn⟩
  · intro st₀ q st₁ h
    simp only [muxConnect] at h
    cases he : muxExchange st₀ q with
    | error e => rw [he] at h; exact Except.noConfusion h
    | ok out =>
      obtain ⟨st2, ret⟩ := out
      rw [he] at h
      simp at h
      by_cases hz : ret = 0
      · simp [hz] at h
        rw [← h]
      · simp [hz] at h
  · intro st₀ q st₁ h
    simp only [listen] at h
    cases he : muxExchange st₀ q with
    | error e => rw [he] at h; exact Except.noConfusion h
    | ok out =>
      obtain ⟨st2, ret⟩ := out
      rw [he] at h
      simp at h
      by_cases hz : ret = 0
      · simp [hz] at h
        rw [← h]
        exact hexchange st₀ q st2 ret he
      · simp [hz] at h
  · intro st₀ q st₁ r h
    by_cases hc : st₀.connected = false
    · obtain ⟨-, -, -, h4, -⟩ := (get_pair_record_ok_iff st₀ q st₁ r hc).mp h
      rw [h4, hc]
    · rw [get_pair_record_connected st₀ q (Bool.not_eq_false _ ▸ hc)] at h
      exact Except.noConfusion h

theorem mux_relay_mode_spec_witness :
    (MuxState.mk 5 true).connected = true ∧
    (∃ e, listen ⟨5, true⟩ ⟨0, 1, 5, 0, none⟩ = .error e) ∧
    (∃ e, muxConnect ⟨5, true⟩ ⟨0, 1, 5, 0, none⟩ = .error e) ∧
    (∃ e, get_pair_record ⟨5, true⟩ ⟨0, 1, 5, 0, none⟩ = .error e) := by
  have h := mux_relay_mode_spec ⟨5, true⟩ ⟨0, 1, 5, 0, none⟩ rfl
  exact ⟨rfl, h.1, h.2.2.1, h.2.2.2.1⟩

/-- C2 counterexample: with device iOS at or below 13.0 and the pairing
record present in the usbmuxd store (but not in the cache), validation
reports "not paired" and a Pair request is sent — the usbmuxd store is never
consulted; and with iOS above 13.0 a record present only in the local cache
is never reached because the usbmuxd miss raises instead of falling through.
Both contradict "tried in order, first hit wins, any record prevents
pairing". -/
theorem validate_pairing_claim_counterexample :
    validate_pairing none false (some [("HostID", "H")]) none false false =
      .notPaired ∧
    initSendsPair none false (some [("HostID", "H")]) none false false =
      .ok true ∧
    pairRecordLookup none true none (some [("HostID", "H")]) =
      .raised .keyError :=
  ⟨rfl, rfl, rfl⟩

/-- C2 amended: the system-wide store's load always fails (`plistlib.load`
is handed a path string, not a file object), so its contents never influence
the result; exactly one fallback is consulted, chosen by iOS version — above
13.0 the usbmuxd store, whose miss raises an error rather than reporting
"not paired", otherwise the local cache, whose miss is the only lookup
outcome reported as "not paired"; a Pair request is sent exactly when
`validate_pairing` returns False, which happens on that cache miss or when a
found record fails the explicit ValidatePair step below iOS 11.0. -/
theorem validate_pairing_precedence (itunes itunes' : Option PairRecord)
    (gt13 : Bool) (mux cache : Option PairRecord) (lt11 vpErr : Bool) :
    (pairRecordLookup itunes gt13 mux cache =
      pairRecordLookup itunes' gt13 mux cache) ∧
    (pairRecordLookup itunes true mux cache =
      match mux with
      | some r => .found r
      | none => .raised .keyError) ∧
    (pairRecordLookup itunes false mux cache =
      match cache with
      | some r => .found r
      | none => .notPaired) ∧
    (pairRecordLookup itunes gt13 mux cache = .notPaired ↔
      gt13 = false ∧ cache = none) ∧
    (validate_pairing itunes gt13 mux cache lt11 vpErr = .notPaired ↔
      (pairRecordLookup itunes gt13 mux cache = .notPaired ∨
       ((∃ r, pairRecordLookup itunes gt13 mux cache = .found r) ∧
         lt11 = true ∧ vpErr = true))) ∧
    (initSendsPair itunes gt13 mux cache lt11 vpErr = .ok true ↔
      validate_pairing itunes gt13 mux cache lt11 vpErr = .notPaired) := by
  cases gt13 <;> cases mux <;> cases cache <;> cases lt11 <;> cases vpErr <;>
    simp [pairRecordLookup, validate_pairing, initSendsPair]

/-- C4 counterexample: operations on a never-opened handle do not all fail:
with an empty handle table, `file_close 5` succeeds when the device replies
success (the table is popped with a default), and `file_seek` with whence 0
dispatches and succeeds without consulting the table. -/
theorem handle_validity_counterexample :
    file_close [] (.statusReply AFC_E_SUCCESS) 5 = ([], .ok ()) ∧
    file_seek [] 5 10 (.statusReply AFC_E_SUCCESS) 3 7 0 =
      .ok (⟨3, 0, 7⟩, 7) :=
  ⟨rfl, rfl⟩

theorem file_seek_whence1_err (handles : HandleTable) (tell size : Nat)
    (seekReply : AFCReply) (handle : Nat) (offset : Int) (e : PyErr)
    (hpath : handlePath handles handle = .error e) :
    file_seek handles tell size seekReply handle offset 1 = .error e := by
  rw [file_seek, if_neg (by norm_num), if_pos rfl, hpath]

theorem file_seek_whence2_err (handles : HandleTable) (tell size : Nat)
    (seekReply : AFCReply) (handle : Nat) (offset : Int) (e : PyErr)
    (hpath : handlePath handles handle = .error e) (hle : ¬ offset > 0) :
    file_seek handles tell size seekReply handle offset 2 = .error e := by
  rw [file_seek, if_neg (by norm_num), if_neg (by norm_num), if_pos rfl,
    if_neg hle, hpath]

theorem file_seek_whence2_posoff (handles : HandleTable) (tell size : Nat)
    (seekReply : AFCReply) (handle : Nat) (offset : Int)
    (hpos : offset > 0) :
    file_seek handles tell size seekReply handle offset 2 =
      .error (mkIOSError none none) := by
  rw [file_seek, if_neg (by norm_num), if_neg (by norm_num), if_pos rfl,
    if_pos hpos]

theorem eraseP_lookup_none (l : HandleTable) (handle : Nat)
    (hunk : l.lookup handle = none) :
    l.eraseP (fun p => p.1 = handle) = l := by
  induction l with
  | nil => rfl
  | cons a l ih =>
    simp only [List.lookup] at hunk
    cases hb : (handle == a.1) with
    | true => rw [hb] at hunk; exact Option.noConfusion hunk
    | false =>
      rw [hb] at hunk
      have ha : ¬ (a.1 = handle) := by
        intro hh
        rw [hh] at hb
        simp at hb
      simp [List.eraseP_cons, ha, ih hunk]

/-- C4 amended: only the operations that resolve the handle to its path
through the handle table — `file_seek` with whence 1 or 2, and `read` given
a handle without a path, all via `_handle_path` — fail locally for a handle
that is not in the table; `file_close` leaves the table unchanged and
succeeds whenever the device replies success (the entry is popped with a
placeholder default), and `file_seek` with whence 0, like `file_tell` and
`file_truncate`, never consults the table at all. -/
theorem handle_validity_spec (handles : HandleTable) (handle : Nat)
    (tell size : Nat) (offset : Int) (reply : AFCReply)
    (hunk : handles.lookup handle = none) :
    (∃ e, handlePath handles handle = .error e) ∧
    (∃ e, file_seek handles tell size reply handle offset 1 = .error e) ∧
    (∃ e, file_seek handles tell size reply handle offset 2 = .error e) ∧
    (file_close handles reply handle).1 = handles ∧
    (∀ d, request AFC_OP_FILE_CLOSE false reply = .ok d →
      (file_close handles reply handle).2 = .ok ()) ∧
    (∀ handles' : HandleTable,
      file_seek handles tell size reply handle offset 0 =
        file_seek handles' tell size reply handle offset 0) ∧
    (∃ v, file_tell (.dataReply (uint64le tell)) handle = .ok v) := by
  have hpath : handlePath handles handle = .error (mkIOSError none none) := by
    rw [handlePath, hunk]
  refine ⟨⟨_, hpath⟩, ⟨_, file_seek_whence1_err handles tell size reply
    handle offset _ hpath⟩, ?_, ?_, ?_, ?_, ?_⟩
  · by_cases hpos : offset > 0
    · exact ⟨_, file_seek_whence2_posoff handles tell size reply handle
        offset hpos⟩
    · exact ⟨_, file_seek_whence2_err handles tell size reply handle offset
        _ hpath hpos⟩
  · simp only [file_close]
    exact eraseP_lookup_none handles handle hunk
  · intro d hd
    simp only [file_close, hd]
    rfl
  · intro handles'
    rw [file_seek_whence0, file_seek_whence0]
  · exact ⟨_, rfl⟩

theorem handle_validity_spec_witness :
    ([] : HandleTable).lookup 5 = none ∧
    (∃ e, handlePath [] 5 = .error e) ∧
    (∃ e, file_seek [] 4 9 (.statusReply 0) 5 2 1 = .error e) := by
  have h := handle_validity_spec [] 5 4 9 2 (.statusReply 0) rfl
  exact ⟨rfl, h.1, h.2.1⟩

theorem request_status_error_isIOSError (op : Nat) (hasPath : Bool)
    (st : Nat) (e : PyErr)
    (he : request op hasPath (.statusReply st) = .error e) :
    e.isIOSError = true := by
  simp only [request] at he
  split_ifs at he with h1 h2
  · rw [← Except.error.inj he]
    rfl
  · rw [← Except.error.inj he]
    rfl

theorem setErrno_errno (e : PyErr) (n : Nat) (h : e.isIOSError = true) :
    (e.setErrno n).errno = some n := by
  cases e <;> simp [PyErr.isIOSError] at h <;> rfl

/-- C6 counterexample: a remove that fails with the object-is-dir status on
a path whose stat is a directory with a 3-entry listing surfaces errno
ENOTDIR (the OS errno that status maps to), not ENOTEMPTY — the remap only
fires when the raised error carries no OS errno. -/
theorem remove_claim_counterexample :
    remove (.statusReply AFC_E_OBJECT_IS_DIR)
        (.ok [("st_ifmt", "S_IFDIR")]) (.ok [".", "..", "a"]) =
      .error (.iOSError (some ENOTDIR) (some AFC_E_OBJECT_IS_DIR)) ∧
    (PyErr.iOSError (some ENOTDIR) (some AFC_E_OBJECT_IS_DIR)).errno ≠
      some ENOTEMPTY :=
  ⟨rfl, by decide⟩

/-- C6 amended: when the failed remove's error carries no OS errno — true
for the unknown status and for the not-found status, whose file-not-found
error carries none — and the path stats as a directory whose listing is not
the two implicit dot entries (in particular any listing of 3 or more
entries), the error is re-raised with errno ENOTEMPTY. -/
theorem remove_notempty_spec (status : Nat) (e : PyErr)
    (stat : List (String × String)) (contents : List String)
    (he : request AFC_OP_REMOVE_PATH true (.statusReply status) = .error e)
    (hnone : e.errno = none)
    (hdir : stat.lookup "st_ifmt" = some "S_IFDIR")
    (hcount : 3 ≤ contents.length) :
    remove (.statusReply status) (.ok stat) (.ok contents) =
      .error (e.setErrno ENOTEMPTY) ∧
    (e.setErrno ENOTEMPTY).errno = some ENOTEMPTY := by
  constructor
  · have h2 : contents.length ≠ 2 := by omega
    simp [remove, he, hnone, isDir, isEmpty, hdir, Except.map,
      decide_eq_false h2]
  · exact setErrno_errno e ENOTEMPTY
      (request_status_error_isIOSError _ _ _ _ he)

theorem remove_notempty_spec_witness :
    request AFC_OP_REMOVE_PATH true (.statusReply AFC_E_UNKNOWN_ERROR) =
      .error (.iOSError none (some AFC_E_UNKNOWN_ERROR)) ∧
    (PyErr.iOSError none (some AFC_E_UNKNOWN_ERROR)).errno = none ∧
    ([("st_ifmt", "S_IFDIR")] : List (String × String)).lookup "st_ifmt" =
      some "S_IFDIR" ∧
    3 ≤ ([".", "..", "a"] : List String).length ∧
    remove (.statusReply AFC_E_UNKNOWN_ERROR) (.ok [("st_ifmt", "S_IFDIR")])
        (.ok [".", "..", "a"]) =
      .error ((PyErr.iOSError none (some AFC_E_UNKNOWN_ERROR)).setErrno
        ENOTEMPTY) := by
  refine ⟨rfl, rfl, rfl, by decide, ?_⟩
  exact (remove_notempty_spec AFC_E_UNKNOWN_ERROR
    (.iOSError none (some AFC_E_UNKNOWN_ERROR)) [("st_ifmt", "S_IFDIR")]
    [".", "..", "a"] rfl rfl rfl (by decide)).1

/-- C7 counterexample: closing an already-closed (never-opened) handle is
not a no-op and can raise: with the handle absent from the table,
`file_close` still sends a FILE_CLOSE request, and a non-success device
status — the usual device reply for a stale handle — surfaces as an error. -/
theorem close_idempotent_counterexample :
    (file_close [] (.statusReply AFC_E_INVALID_ARG) 7).2 =
      .error (.iOSError none (some AFC_E_INVALID_ARG)) := rfl

/-- C7 amended: client shutdown is detach-once idempotent — a second close
(from the explicit call, `__del__`, or the finalizer path) changes nothing,
performs no actions and never raises, so channel and handles are closed at
most once; closing an already-closed file handle leaves the handle table
unchanged and raises no local error, but still sends one FILE_CLOSE request
whose non-success device status surfaces as an error. -/
theorem close_idempotent_spec (s : ClientState) (handles : HandleTable)
    (handle : Nat) (reply : AFCReply)
    (hunk : handles.lookup handle = none) :
    close (close s).1 = ((close s).1, []) ∧
    (close s).1.finalizerAlive = false ∧
    (file_close handles reply handle).1 = handles ∧
    (∀ d, request AFC_OP_FILE_CLOSE false reply = .ok d →
      (file_close handles reply handle).2 = .ok ()) ∧
    (∀ e, request AFC_OP_FILE_CLOSE false reply = .error e →
      (file_close handles reply handle).2 = .error e) := by
  have hdead : (close s).1.finalizerAlive = false := by
    by_cases hf : s.finalizerAlive = true
    · simp only [close, hf, if_true, privateClose]
      split_ifs <;> rfl
    · simp only [close, hf, if_false]
      exact Bool.not_eq_true _ |>.mp hf
  refine ⟨?_, hdead, ?_, ?_, ?_⟩
  · rw [close, if_neg (by rw [hdead]; exact Bool.false_ne_true)]
  · simp only [file_close]
    exact eraseP_lookup_none handles handle hunk
  · intro d hd
    simp only [file_close, hd]
    rfl
  · intro e hee
    simp only [file_close, hee]
    rfl

theorem close_idempotent_spec_witness :
    ([] : HandleTable).lookup 7 = none ∧
    close (close ⟨true, true, [(3, "/a")]⟩).1 =
      ((close ⟨true, true, [(3, "/a")]⟩).1, []) ∧
    (file_close [] (.statusReply 0) 7).1 = [] := by
  have h := close_idempotent_spec ⟨true, true, [(3, "/a")]⟩ [] 7
    (.statusReply 0) rfl
  exact ⟨rfl, h.1, h.2.2.1⟩

end PyPod
